import Mathlib

set_option autoImplicit false

/-!
Shallow embedding of the PoliticalEconomicalAnalyser pipeline
(src/main.py): caption resolution, audio-transcription fallback, text
normalization and the batch driver, with every external collaborator
modelled as a response function in an environment record.
-/

namespace PEA

/-- A caption segment as fetched from the caption collaborator: one timed
text entry of a transcript (`c["text"]` in run_pipeline line 140). -/
structure CaptionSegment where
  text : String
deriving DecidableEq

/-- A caption track exposed by the caption collaborator for one video: its
language code, whether it was auto-generated, and the segments a fetch
returns. -/
structure Transcript where
  language_code : String
  is_generated : Bool
  segments : List CaptionSegment
deriving DecidableEq

/-- Fetching a track returns its segment list. -/
def Transcript.fetch (t : Transcript) : List CaptionSegment :=
  t.segments

/-- The caption collaborator's lookup over a pool of tracks: try each
requested language code in order and return the first track of the pool
in that language; when no requested language matches, the collaborator
signals not-found as an error (it does not return a null value). -/
def findTranscriptIn (pool : List Transcript) : List String → Except String Transcript
  | [] => .error "NoTranscriptFound"
  | l :: rest =>
    match pool.find? (fun t => t.language_code == l) with
    | some t => .ok t
    | none => findTranscriptIn pool rest

/-- find_manually_created_transcript: lookup restricted to the manually
created tracks of the video. -/
def find_manually_created_transcript (ts : List Transcript) (langs : List String) :
    Except String Transcript :=
  findTranscriptIn (ts.filter (fun t => t.is_generated == false)) langs

/-- find_generated_transcript: lookup restricted to the auto-generated
tracks of the video. -/
def find_generated_transcript (ts : List Transcript) (langs : List String) :
    Except String Transcript :=
  findTranscriptIn (ts.filter (fun t => t.is_generated == true)) langs

/-- Python truthiness of a Transcript object: the class defines neither a
bool conversion nor a length, so an instance is always truthy. -/
def transcriptTruthy (_ : Transcript) : Bool :=
  true

/-- The try body of get_captions (src/main.py lines 50-59): list the
video's transcripts, test the manual-'si' lookup for truthiness and
return its fetch, then the manual-'en' lookup, then the generated
'si'/'en' lookup. Each lookup signals not-found as an error, which
escapes this body to the blanket handler. The repeated lookups mirror
lines 53-54 and 56-57 of the source, which call find twice. -/
def get_captions_body (p : Except String (List Transcript)) :
    Except String (List CaptionSegment) :=
  match p with
  | .error e => .error e
  | .ok transcripts =>
    match find_manually_created_transcript transcripts ["si"] with
    | .error e => .error e
    | .ok t1 =>
      if transcriptTruthy t1 then
        match find_manually_created_transcript transcripts ["si"] with
        | .error e => .error e
        | .ok t => .ok t.fetch
      else
        match find_manually_created_transcript transcripts ["en"] with
        | .error e => .error e
        | .ok t2 =>
          if transcriptTruthy t2 then
            match find_manually_created_transcript transcripts ["en"] with
            | .error e => .error e
            | .ok t => .ok t.fetch
          else
            match find_generated_transcript transcripts ["si", "en"] with
            | .error e => .error e
            | .ok t => .ok t.fetch

/-- get_captions (src/main.py lines 48-63): the try body with every
exception caught and converted to None. -/
def get_captions (p : Except String (List Transcript)) : Option (List CaptionSegment) :=
  (get_captions_body p).toOption

/-- The external collaborators the pipeline calls, as response functions:
the caption provider (list_transcripts per video id, which may signal an
error such as captions disabled or a network failure), the audio
downloader (per url: completes or raises), the filesystem existence
check after download, the speech model (audio path, task flag, fp16
flag), language detection (may raise on ambiguous input) and machine
translation (source code, target code, text; may raise). -/
structure Env where
  provider : String → Except String (List Transcript)
  download : String → Except String Unit
  fileExists : String → Bool
  modelTranscribe : String → String → Bool → String
  detect : String → Except String String
  translate : String → String → String → Except String String

/-- Python str.split on the separator "v=" over the characters of a url:
split at each occurrence of 'v','=' scanning left to right. -/
def splitVE : List Char → List (List Char)
  | [] => [[]]
  | 'v' :: '=' :: rest => [] :: splitVE rest
  | c :: rest =>
    match splitVE rest with
    | [] => [[c]]
    | h :: t => (c :: h) :: t

/-- Whether "v=" occurs as a contiguous substring of the character list. -/
def hasVE : List Char → Bool
  | 'v' :: '=' :: _ => true
  | _ :: rest => hasVE rest
  | [] => false

/-- The video-id extraction of transcribe_audio line 71:
video_url.split("v=")[-1]. -/
def lastSplitVE (url : String) : String :=
  String.mk ((splitVE url.toList).getLastD [])

/-- The audio artifact path of transcribe_audio line 72:
os.path.join("audio", video_id + ".wav") with the id derived from the
url. -/
def audioPathOf (video_url : String) : String :=
  "audio/" ++ lastSplitVE video_url ++ ".wav"

/-- transcribe_audio (src/main.py lines 70-112): derive the id and the
audio path from the url, download via the audio collaborator, raise a
hard error if the audio file does not exist afterwards, otherwise run
the speech model in translate mode with fp16 off. -/
def transcribe_audio (env : Env) (video_url : String) : Except String String :=
  let audio_path := audioPathOf video_url
  match env.download video_url with
  | .error e => .error e
  | .ok _ =>
    if !env.fileExists audio_path then
      .error ("Audio file not created: " ++ audio_path)
    else
      .ok (env.modelTranscribe audio_path "translate" false)

/-- normalize_text (src/main.py lines 116-122): detect the language; if
it is "si", translate from "si" to "en" via the translator; otherwise
return the text unchanged. Detection or translation failure
propagates. -/
def normalize_text (env : Env) (text : String) : Except String String :=
  match env.detect text with
  | .error e => .error e
  | .ok lang =>
    if lang == "si" then
      env.translate "si" "en" text
    else
      .ok text

/-- A candidate video descriptor as produced by the search collaborator. -/
structure VideoCandidate where
  videoId : String
  title : String
  description : String
  publishedAt : String
deriving DecidableEq

/-- The record assembled at src/main.py lines 148-155. -/
structure ResultRecord where
  video_id : String
  title : String
  published : String
  source : String
  url : String
  content_en : String
deriving DecidableEq

/-- The canonical watch url built at run_pipeline line 135. -/
def urlOf (video_id : String) : String :=
  "https://www.youtube.com/watch?v=" ++ video_id

/-- Python truthiness of the captions value at line 139: None and an
empty list are falsy, a non-empty list is truthy. -/
def captionsTruthy : Option (List CaptionSegment) → Bool
  | none => false
  | some l => !l.isEmpty

/-- The join at run_pipeline line 140: the segments' text fields joined
by a single space in segment order. -/
def joinSpace (cs : List CaptionSegment) : String :=
  String.intercalate " " (cs.map (fun c => c.text))

/-- The record literal of run_pipeline lines 148-155. -/
def mkRecord (v : VideoCandidate) (url text_en : String) : ResultRecord :=
  { video_id := v.videoId, title := v.title, published := v.publishedAt,
    source := "YouTube", url := url, content_en := text_en }

/-- One iteration of run_pipeline's loop (lines 131-155): resolve
captions, join them when truthy, otherwise fall back to audio
transcription; normalize; assemble the record. An uncaught error of the
fallback or of normalization aborts the iteration. -/
def processOne (env : Env) (v : VideoCandidate) : Except String ResultRecord :=
  let url := urlOf v.videoId
  let captions := get_captions (env.provider v.videoId)
  let textE : Except String String :=
    if captionsTruthy captions then
      .ok (joinSpace (captions.getD []))
    else
      transcribe_audio env url
  match textE with
  | .error e => .error e
  | .ok text =>
    match normalize_text env text with
    | .error e => .error e
    | .ok text_en => .ok (mkRecord v url text_en)

/-- The loop of run_pipeline over all candidates in order, appending each
record; the first uncaught per-item error aborts the whole loop. -/
def processAll (env : Env) : List VideoCandidate → Except String (List ResultRecord)
  | [] => .ok []
  | v :: rest =>
    match processOne env v with
    | .error e => .error e
    | .ok r =>
      match processAll env rest with
      | .error e => .error e
      | .ok rs => .ok (r :: rs)

/-- run_pipeline (lines 126-160) with its file writes made explicit: the
second component lists each dump of the results file, in order. The dump
at line 157 runs only after the loop finished without an uncaught
exception; an aborted run writes nothing. -/
def run_pipeline (env : Env) (videos : List VideoCandidate) :
    Except String Unit × List (List ResultRecord) :=
  match processAll env videos with
  | .ok rs => (.ok (), [rs])
  | .error e => (.error e, [])

/-- A video with a single manually created English track and no Sinhala
track of any kind. -/
def enManualTrack : Transcript :=
  { language_code := "en", is_generated := false, segments := [{ text := "hello" }] }

/-- A video with a single auto-generated Sinhala track and no manual
track in either language. -/
def siGenTrack : Transcript :=
  { language_code := "si", is_generated := true, segments := [{ text := "ayubowan" }] }

/-- A manually created Sinhala track with three one-letter segments. -/
def siManualABC : Transcript :=
  { language_code := "si", is_generated := false,
    segments := [{ text := "a" }, { text := "b" }, { text := "c" }] }

/-- A manually created Sinhala track whose fetch yields no segments. -/
def siManualEmpty : Transcript :=
  { language_code := "si", is_generated := false, segments := [] }

/-- A sample candidate. -/
def vSample : VideoCandidate :=
  { videoId := "abc123", title := "t", description := "d", publishedAt := "2025-08-01" }

/-- A second sample candidate. -/
def vSample2 : VideoCandidate :=
  { videoId := "xyz789", title := "u", description := "e", publishedAt := "2025-08-02" }

/-- An environment whose caption provider returns the three-segment
manual Sinhala track and whose detector reports English. -/
def envCaptioned : Env :=
  { provider := fun _ => .ok [siManualABC],
    download := fun _ => .ok (),
    fileExists := fun _ => false,
    modelTranscribe := fun _ _ _ => "",
    detect := fun _ => .ok "en",
    translate := fun _ _ t => .ok t }

/-- Like envCaptioned but the detector reports Sinhala and the
translator marks its output. -/
def envDetectSi : Env :=
  { envCaptioned with
      detect := fun _ => .ok "si",
      translate := fun _ _ t => .ok ("translated " ++ t) }

/-- Like envCaptioned but with entirely different audio collaborators. -/
def envAudioVariant : Env :=
  { envCaptioned with
      download := fun _ => .error "download failed",
      fileExists := fun _ => true,
      modelTranscribe := fun _ _ _ => "something else" }

/-- An environment whose provider exposes only the empty manual Sinhala
track and whose audio chain succeeds. -/
def envEmptyCaptions : Env :=
  { envCaptioned with
      provider := fun _ => .ok [siManualEmpty],
      fileExists := fun _ => true,
      modelTranscribe := fun _ _ _ => "spoken words" }

/-- An environment whose caption provider signals an error and whose
audio download completes without producing the audio file. -/
def envNoCaptionsNoAudio : Env :=
  { envCaptioned with provider := fun _ => .error "captions disabled" }

/-- Reducing `hasVE` on a cons cell that does not start the separator. -/
theorem hasVE_cons (c : Char) (rest : List Char)
    (hne : ∀ r, c = 'v' → rest = '=' :: r → False) :
    hasVE (c :: rest) = hasVE rest := by
  rw [hasVE.eq_def]
  split
  · rename_i tail heq
    injection heq with h1 h2
    exact (hne tail h1 h2).elim
  · rename_i x1 hd rst hno heq
    injection heq with h1 h2
    rw [h2]
  · rename_i x heq
    simp at heq

/-- Reducing `splitVE` on a cons cell that does not start the separator. -/
theorem splitVE_cons_other (c : Char) (rest : List Char)
    (hne : ∀ r, c = 'v' → rest = '=' :: r → False) :
    splitVE (c :: rest) =
      match splitVE rest with
      | [] => [[c]]
      | h :: t => (c :: h) :: t := by
  rw [splitVE.eq_def]
  split
  · rename_i x heq
    simp at heq
  · rename_i x tail heq
    injection heq with h1 h2
    exact (hne tail h1 h2).elim
  · rename_i x1 c2 rest2 hno heq
    injection heq with h1 h2
    rw [h1, h2]

/-- A string without the separator is returned whole by the split. -/
theorem splitVE_of_not_hasVE (s : List Char) (h : hasVE s = false) : splitVE s = [s] := by
  induction s using splitVE.induct with
  | case1 => rfl
  | case2 rest ih =>
    rw [show hasVE ('v' :: '=' :: rest) = true from rfl] at h
    simp at h
  | case3 c rest hne hrest ih =>
    rw [hasVE_cons c rest hne] at h
    rw [ih h] at hrest
    simp at hrest
  | case4 c rest hne h2 t hst ih =>
    rw [hasVE_cons c rest hne] at h
    rw [splitVE_cons_other c rest hne, ih h]

/-- Splitting around the first separator occurrence, when the part
before it contains no 'v'. -/
theorem splitVE_append_ve (a b : List Char) (hv : 'v' ∉ a) :
    splitVE (a ++ 'v' :: '=' :: b) = a :: splitVE b := by
  induction a with
  | nil => rfl
  | cons c a2 ih =>
    have hcv : c ≠ 'v' := fun hc => hv (hc ▸ List.mem_cons_self c a2)
    have hv2 : 'v' ∉ a2 := fun hm => hv (List.mem_cons_of_mem c hm)
    rw [List.cons_append, splitVE_cons_other c (a2 ++ 'v' :: '=' :: b)
      (fun r h1 _ => hcv h1), ih hv2]

/-- A successfully processed candidate's record carries the candidate's
video id. -/
theorem processOne_ok_id (env : Env) (v : VideoCandidate) (r : ResultRecord)
    (h : processOne env v = .ok r) : r.video_id = v.videoId := by
  rw [processOne] at h
  split at h
  · exact absurd h (by simp)
  · split at h
    · exact absurd h (by simp)
    · rw [Except.ok.injEq] at h
      rw [← h, mkRecord]

/-- A successful loop produces one record per candidate, with the video
ids in input order. -/
theorem processAll_ok_ids (env : Env) (videos : List VideoCandidate)
    (rs : List ResultRecord) (h : processAll env videos = .ok rs) :
    rs.map (fun r => r.video_id) = videos.map (fun v => v.videoId) := by
  induction videos generalizing rs with
  | nil =>
    rw [processAll] at h
    rw [Except.ok.injEq] at h
    rw [← h]
    rfl
  | cons v rest ih =>
    rw [processAll] at h
    split at h
    · exact absurd h (by simp)
    · rename_i r hr
      split at h
      · exact absurd h (by simp)
      · rename_i rs2 hrs
        rw [Except.ok.injEq] at h
        rw [← h, List.map_cons, List.map_cons,
          processOne_ok_id env v r hr, ih rs2 hrs]

/-- With untruthy captions, a candidate is processed through the audio
fallback followed by normalization. -/
theorem processOne_absent (env : Env) (v : VideoCandidate)
    (hcap : captionsTruthy (get_captions (env.provider v.videoId)) = false) :
    processOne env v =
      match transcribe_audio env (urlOf v.videoId) with
      | .error e => .error e
      | .ok text =>
        match normalize_text env text with
        | .error e => .error e
        | .ok text_en => .ok (mkRecord v (urlOf v.videoId) text_en) := by
  rw [processOne]
  simp only [hcap]
  rfl

/-- After a download that produced no audio file, transcribe_audio
raises its hard error. -/
theorem transcribe_audio_missing_file (env : Env) (url : String)
    (hdl : env.download url = .ok ())
    (hfile : env.fileExists (audioPathOf url) = false) :
    transcribe_audio env url = .error ("Audio file not created: " ++ audioPathOf url) := by
  rw [transcribe_audio, hdl]
  simp [hfile]

/-- A per-item error anywhere in the candidate list makes the whole loop
return an error, whatever comes before or after the item. -/
theorem processAll_mid_error (env : Env) (v : VideoCandidate)
    (pre rest : List VideoCandidate) (e : String)
    (hv : processOne env v = .error e) :
    ∃ e2, processAll env (pre ++ v :: rest) = .error e2 := by
  induction pre with
  | nil =>
    refine ⟨e, ?_⟩
    rw [List.nil_append, processAll, hv]
  | cons p pre2 ih =>
    rw [List.cons_append, processAll]
    obtain ⟨e2, he2⟩ := ih
    cases hp : processOne env p with
    | error e3 => exact ⟨e3, rfl⟩
    | ok r => rw [he2]; exact ⟨e2, rfl⟩

/-- Claim C1, failing input: the claimed caption priority fallback never
happens. For a video whose only track is a manually created English one,
and for a video whose only track is an auto-generated Sinhala one,
get_captions returns None instead of the claimed track text: the
not-found signal of the manual-'si' lookup escapes to the blanket
handler before any lower-priority lookup runs. -/
theorem c1_caption_fallback_dead :
    get_captions (.ok [enManualTrack]) = none ∧
    get_captions (.ok [siGenTrack]) = none :=
  ⟨rfl, rfl⟩

/-- Claim C2: for every video whose caption provider signals an error
(track not found, captions disabled, network failure) or exposes no
caption track at all, get_captions returns None; being a total function
into Option it propagates no exception. -/
theorem c2_absent_on_error_or_no_tracks (p : Except String (List Transcript)) :
    ((∃ e, p = .error e) ∨ p = .ok []) → get_captions p = none := by
  rintro (⟨e, rfl⟩ | rfl) <;> rfl

/-- Witness for C2 at a provider error and at an empty track list. -/
theorem c2_absent_witness :
    get_captions (.error "network failure") = none ∧ get_captions (.ok []) = none :=
  ⟨c2_absent_on_error_or_no_tracks _ (Or.inl ⟨"network failure", rfl⟩),
   c2_absent_on_error_or_no_tracks _ (Or.inr rfl)⟩

/-- Claim C3: for a candidate with untruthy captions whose audio file is
missing after acquisition, transcribe_audio raises the hard error, the
error is caught nowhere, and the whole batch aborts with nothing
written, whatever candidates come before or after. -/
theorem c3_audio_failure_aborts_batch (env : Env) (v : VideoCandidate)
    (pre rest : List VideoCandidate)
    (hcap : captionsTruthy (get_captions (env.provider v.videoId)) = false)
    (hdl : env.download (urlOf v.videoId) = .ok ())
    (hfile : env.fileExists (audioPathOf (urlOf v.videoId)) = false) :
    transcribe_audio env (urlOf v.videoId) =
      .error ("Audio file not created: " ++ audioPathOf (urlOf v.videoId)) ∧
    (∃ e, processAll env (pre ++ v :: rest) = .error e) ∧
    (run_pipeline env (pre ++ v :: rest)).2 = [] := by
  have ht := transcribe_audio_missing_file env (urlOf v.videoId) hdl hfile
  have hone : processOne env v =
      .error ("Audio file not created: " ++ audioPathOf (urlOf v.videoId)) := by
    rw [processOne_absent env v hcap, ht]
  obtain ⟨e2, he2⟩ := processAll_mid_error env v pre rest _ hone
  refine ⟨ht, ⟨e2, he2⟩, ?_⟩
  rw [run_pipeline, he2]

/-- Witness for C3: a one-candidate batch with a caption-provider error
and no audio file aborts with no write. -/
theorem c3_audio_failure_witness :
    (∃ e, processAll envNoCaptionsNoAudio [vSample] = .error e) ∧
    (run_pipeline envNoCaptionsNoAudio [vSample]).2 = [] := by
  have h := c3_audio_failure_aborts_batch envNoCaptionsNoAudio vSample [] [] rfl rfl rfl
  exact ⟨h.2.1, h.2.2⟩

/-- Claim C4: a run either aborts on some error with no file write at
all, or succeeds and writes the results file exactly once, after the
whole loop, with one record per input candidate; a partial collection is
never persisted. -/
theorem c4_single_write_after_loop (env : Env) (videos : List VideoCandidate) :
    ((run_pipeline env videos).2 = [] ∧ ∃ e, (run_pipeline env videos).1 = .error e) ∨
    (∃ rs, (run_pipeline env videos).2 = [rs] ∧ (run_pipeline env videos).1 = .ok () ∧
      rs.length = videos.length) := by
  cases h : processAll env videos with
  | error e =>
    left
    rw [run_pipeline, h]
    exact ⟨rfl, e, rfl⟩
  | ok rs =>
    right
    refine ⟨rs, ?_, ?_, ?_⟩
    · rw [run_pipeline, h]
    · rw [run_pipeline, h]
    · have := processAll_ok_ids env videos rs h
      have hlen := congrArg List.length this
      simpa using hlen

/-- Claim C5: normalize_text returns its input unchanged whenever the
detected language is not "si", and returns the si-to-en machine
translation whenever the detected language is "si". -/
theorem c5_normalize_policy (env : Env) (text lang : String) :
    (env.detect text = .ok lang → lang ≠ "si" → normalize_text env text = .ok text) ∧
    (env.detect text = .ok "si" → normalize_text env text = env.translate "si" "en" text) := by
  constructor
  · intro hd hne
    rw [normalize_text, hd]
    simp [hne]
  · intro hd
    rw [normalize_text, hd]
    simp

/-- Witness for C5 with an English detection and a Sinhala detection. -/
theorem c5_normalize_policy_witness :
    normalize_text envCaptioned "hello" = .ok "hello" ∧
    normalize_text envDetectSi "hello" = envDetectSi.translate "si" "en" "hello" :=
  ⟨(c5_normalize_policy envCaptioned "hello" "en").1 rfl (by decide),
   (c5_normalize_policy envDetectSi "hello" "si").2 rfl⟩

/-- Claim C6: with a present non-empty caption list the text passed
onward is the segments' text fields joined by a single space in segment
order, and on segments "a", "b", "c" that join is exactly "a b c". -/
theorem c6_joined_caption_text (env : Env) (v : VideoCandidate) (cs : List CaptionSegment) :
    (get_captions (env.provider v.videoId) = some cs → cs.isEmpty = false →
      processOne env v =
        match normalize_text env (joinSpace cs) with
        | .error e => .error e
        | .ok text_en => .ok (mkRecord v (urlOf v.videoId) text_en)) ∧
    joinSpace [⟨"a"⟩, ⟨"b"⟩, ⟨"c"⟩] = "a b c" := by
  constructor
  · intro hcs hne
    rw [processOne]
    simp only [hcs, captionsTruthy, hne, Bool.not_false, Option.getD_some, if_true]
  · rfl

/-- Witness for C6: the captioned sample candidate yields exactly
"a b c" as its normalized content. -/
theorem c6_joined_caption_text_witness :
    processOne envCaptioned vSample =
      .ok (mkRecord vSample (urlOf vSample.videoId) "a b c") := by
  have h := (c6_joined_caption_text envCaptioned vSample
    [⟨"a"⟩, ⟨"b"⟩, ⟨"c"⟩]).1 rfl rfl
  rw [h]
  rfl

/-- Claim C7: when the resolver returns truthy captions, processing a
candidate never invokes audio transcription: the outcome is independent
of the audio collaborators (download, file check, speech model). -/
theorem c7_no_transcription_when_captions (e1 e2 : Env) (v : VideoCandidate)
    (hp : e1.provider = e2.provider) (hd : e1.detect = e2.detect)
    (ht : e1.translate = e2.translate)
    (hcap : captionsTruthy (get_captions (e1.provider v.videoId)) = true) :
    processOne e1 v = processOne e2 v := by
  have hcap2 : captionsTruthy (get_captions (e2.provider v.videoId)) = true := by
    rw [← hp]; exact hcap
  have hn : ∀ t, normalize_text e1 t = normalize_text e2 t := by
    intro t
    rw [normalize_text, normalize_text, hd, ht]
  rw [processOne, processOne]
  simp only [hp, hcap2, if_true, hn]

/-- Witness for C7: two environments differing in every audio
collaborator process the captioned sample candidate identically. -/
theorem c7_no_transcription_witness :
    processOne envCaptioned vSample = processOne envAudioVariant vSample :=
  c7_no_transcription_when_captions envCaptioned envAudioVariant vSample
    rfl rfl rfl rfl

/-- Claim C8: the records of a successful run are in exactly the input
candidate order, whichever path each item took. -/
theorem c8_result_order (env : Env) (videos : List VideoCandidate)
    (rs : List ResultRecord) (h : processAll env videos = .ok rs) :
    rs.map (fun r => r.video_id) = videos.map (fun v => v.videoId) :=
  processAll_ok_ids env videos rs h

/-- Witness for C8 on a two-candidate batch. -/
theorem c8_result_order_witness :
    List.map (fun r => r.video_id)
      [mkRecord vSample (urlOf vSample.videoId) "a b c",
       mkRecord vSample2 (urlOf vSample2.videoId) "a b c"] =
    List.map (fun v => v.videoId) [vSample, vSample2] :=
  c8_result_order envCaptioned [vSample, vSample2] _ rfl

/-- Claim C9: a present-but-empty caption list is treated exactly like
Absent: the truthiness test fails and the candidate is processed through
audio transcription instead of producing the empty joined text. -/
theorem c9_empty_captions_fall_through (env : Env) (v : VideoCandidate)
    (h : get_captions (env.provider v.videoId) = some []) :
    processOne env v =
      match transcribe_audio env (urlOf v.videoId) with
      | .error e => .error e
      | .ok text =>
        match normalize_text env text with
        | .error e => .error e
        | .ok text_en => .ok (mkRecord v (urlOf v.videoId) text_en) :=
  processOne_absent env v (by rw [h]; rfl)

/-- Witness for C9: with an empty manual track the sample candidate's
content comes from the speech model, not from an empty join. -/
theorem c9_empty_captions_witness :
    processOne envEmptyCaptions vSample =
      .ok (mkRecord vSample (urlOf vSample.videoId) "spoken words") := by
  rw [c9_empty_captions_fall_through envEmptyCaptions vSample rfl]
  rfl

/-- Claim C10: for every video id not containing "v=", the id
transcribe_audio extracts from the canonical watch url is the original
id, and the audio artifact path is audio/<id>.wav. -/
theorem c10_url_id_roundtrip (vid : String) (h : hasVE vid.toList = false) :
    lastSplitVE (urlOf vid) = vid ∧
    audioPathOf (urlOf vid) = "audio/" ++ vid ++ ".wav" := by
  have h1 : (urlOf vid).toList =
      "https://www.youtube.com/watch?".toList ++ 'v' :: '=' :: vid.toList := by
    show (urlOf vid).data = _
    rw [urlOf, String.data_append]
    rfl
  have h2 : lastSplitVE (urlOf vid) = vid := by
    rw [lastSplitVE, h1,
      splitVE_append_ve _ _ (by decide), splitVE_of_not_hasVE _ h]
    simp [List.getLastD]
  exact ⟨h2, by rw [audioPathOf, h2]⟩

/-- Witness for C10 at a concrete video id. -/
theorem c10_url_id_roundtrip_witness :
    lastSplitVE (urlOf "dQw4w9WgXcQ") = "dQw4w9WgXcQ" ∧
    audioPathOf (urlOf "dQw4w9WgXcQ") = "audio/" ++ "dQw4w9WgXcQ" ++ ".wav" :=
  c10_url_id_roundtrip "dQw4w9WgXcQ" (by decide)

end PEA
